import Mathlib

/-!
# Verification of the coffeebar GPIO tester

Shallow embedding of `src/main.py` (and its near-duplicate `src/test.py`)
of the `coffeebar` repository: a configuration-driven GPIO tester with
commands `cycle`, `test`, `watch`, `set` over a static pin registry.

Modelling conventions:
* Electrical levels `GPIO.HIGH` / `GPIO.LOW` become the `Level` inductive.
* A pin configuration dictionary entry of the Python `PINS` table becomes
  a `PinCfg` structure; optional dictionary keys read with `.get(key, default)`
  become `Option` fields read with `Option.getD`.
* Driver and console effects are modelled as an explicit trace: each
  `GPIO.setup` / `GPIO.output` / `GPIO.input` / `GPIO.add_event_detect` /
  `GPIO.cleanup` call, and each distinguished error/warning/outcome print
  line, appends one `Event`.  Plain informational prints that carry no
  driver interaction are not traced.
* `time.sleep` calls are numbered 0,1,2,… within a command; a
  `KeyboardInterrupt` is modelled by an optional index `intr` naming the
  sleep during which the interrupt arrives (`none` = no interrupt; an index
  past the last executed sleep also means no interrupt fires).  This mirrors
  the source, where `KeyboardInterrupt` is only ever observed around the
  `time.sleep` hold points inside the `try:` blocks.
-/

/-- Python `str.upper()` on the (all-ASCII) configuration strings: uppercase
character by character. -/
def pyUpper (s : String) : String := String.mk (s.data.map Char.toUpper)

/-- Python `str.lower()` on the (all-ASCII) state strings: lowercase character
by character. -/
def pyLower (s : String) : String := String.mk (s.data.map Char.toLower)

/-- Python `str.strip()`: drop leading and trailing whitespace. -/
def pyStrip (s : String) : String :=
  String.mk (((s.data.dropWhile Char.isWhitespace).reverse.dropWhile Char.isWhitespace).reverse)

/-- Electrical level, `GPIO.HIGH` / `GPIO.LOW`. -/
inductive Level where
  | HIGH
  | LOW
  deriving DecidableEq, Repr

/-- Pull resistor configuration, `GPIO.PUD_UP` / `GPIO.PUD_DOWN` / `GPIO.PUD_OFF`. -/
inductive Pud where
  | UP
  | DOWN
  | OFF
  deriving DecidableEq, Repr

/-- One entry of the Python `PINS` dictionary (`src/main.py` lines 9-12).
Optional keys (`pull`, `active_high`, `active_low`) are `Option` fields;
the source reads them with `cfg.get(key, default)`, embedded as `Option.getD`. -/
structure PinCfg where
  pin : Nat
  dir : String
  pull : Option String := none
  active_high : Option Bool := none
  active_low : Option Bool := none
  deriving DecidableEq, Repr

/-- One observable driver/console event of a command run. -/
inductive Event where
  /-- `GPIO.setup(pin, GPIO.OUT, initial=...)` -/
  | setupOut (pin : Nat) (initial : Level)
  /-- `GPIO.setup(pin, GPIO.IN, pull_up_down=...)` -/
  | setupIn (pin : Nat) (pud : Pud)
  /-- `GPIO.output(pin, level)` -/
  | write (pin : Nat) (level : Level)
  /-- `GPIO.input(pin)` -/
  | readPin (pin : Nat)
  /-- `GPIO.add_event_detect(pin, GPIO.BOTH, callback=..., bouncetime=ms)` -/
  | addEventDetect (pin : Nat) (bouncetimeMs : Nat)
  /-- `GPIO.cleanup()` followed by the `[CLEANUP] GPIO reset.` print -/
  | cleanup
  /-- `[WARN] No OUTPUT pins configured to cycle.` -/
  | warnNoOutputs
  /-- `[ERROR] Unknown pin '...'. Use --list to see options.` -/
  | errorUnknownPin (name : String)
  /-- `[ERROR] ... is INPUT/OUTPUT ...` (wrong direction for the command) -/
  | errorWrongDirection (name : String)
  /-- the `except KeyboardInterrupt:` handler print (`Stopped.` / `Interrupted.`) -/
  | infoInterrupted
  /-- normal-completion print (`Completed testing ...` / `Done watching input.`) -/
  | infoCompleted
  deriving DecidableEq, Repr

/-- The pin registry: the Python `PINS` dict, as an ordered association list. -/
abbrev Registry := List (String × PinCfg)

/-- Dictionary lookup `PINS[pin_name]` guarded by `pin_name not in PINS`. -/
def lookup (pins : Registry) (pin_name : String) : Option PinCfg :=
  (pins.find? (fun nc => nc.1 == pin_name)).map (·.2)

/-- The concrete `LOW_FILL_SENSOR` entry of `PINS` in `src/main.py` line 10. -/
def lowFillCfg : PinCfg :=
  { pin := 18, dir := "IN", pull := some "UP", active_low := some true }

/-- The concrete `ESPRESSO_PUMP_RELAY` entry of `PINS` in `src/main.py` line 11. -/
def pumpCfg : PinCfg :=
  { pin := 23, dir := "OUT", active_high := some true }

/-- The static pin configuration `PINS` of `src/main.py` lines 9-12. -/
def PINS : Registry :=
  [("LOW_FILL_SENSOR", lowFillCfg), ("ESPRESSO_PUMP_RELAY", pumpCfg)]

/-- `_level_for_on(cfg, on)` (`src/main.py` lines 34-38): raises `ValueError`
for a non-OUT pin, otherwise `GPIO.HIGH if (on == active_high) else GPIO.LOW`
with `active_high = bool(cfg.get("active_high", True))`. -/
def level_for_on (cfg : PinCfg) (logical_on : Bool) : Except String Level :=
  if pyUpper cfg.dir ≠ "OUT" then
    Except.error "Tried to drive an input pin."
  else
    Except.ok (if logical_on == cfg.active_high.getD true then Level.HIGH else Level.LOW)

/-- The level computed by `_level_for_on` on the (always guarded) OUT call
sites: `GPIO.HIGH if (on == active_high) else GPIO.LOW`.  Every call of
`_level_for_on` in the source is dominated by the same `cfg["dir"].upper()
== "OUT"` check the function itself performs, so on those paths the
`ValueError` branch is dead; `level_for_on_ok` below records this. -/
def levelForOn (cfg : PinCfg) (logical_on : Bool) : Level :=
  if logical_on == cfg.active_high.getD true then Level.HIGH else Level.LOW

theorem level_for_on_ok (cfg : PinCfg) (logical_on : Bool)
    (h : pyUpper cfg.dir = "OUT") :
    level_for_on cfg logical_on = Except.ok (levelForOn cfg logical_on) := by
  simp [level_for_on, levelForOn, h]

/-- The logical-translation core of `_fmt_input` (`src/main.py` lines 119-122):
`"ACTIVE" if (level == GPIO.LOW and active_low) or (level == GPIO.HIGH and not
active_low) else "INACTIVE"`, with `active_low = bool(PINS[name].get("active_low",
False))`.  `true` = ACTIVE. -/
def fmtInputActive (active_low : Bool) (level : Level) : Bool :=
  (level == Level.LOW && active_low) || (level == Level.HIGH && !active_low)

/-- `_fmt_input(name, level)` of `src/main.py` lines 119-122, as the logical
state it reports for a registry entry. -/
def fmt_input (pins : Registry) (name : String) (level : Level) : Option Bool :=
  (lookup pins name).map (fun cfg => fmtInputActive (cfg.active_low.getD false) level)

/-- The single `GPIO.setup` call `_setup_gpio` issues for one configuration
entry (`src/main.py` lines 20-32): OUT pins get `initial=GPIO.LOW`, IN pins
get the pull translated from `cfg.get("pull", "UP").upper()`. -/
def setupEventFor (cfg : PinCfg) : Event :=
  if pyUpper cfg.dir == "OUT" then
    Event.setupOut cfg.pin Level.LOW
  else
    let pull := pyUpper (cfg.pull.getD "UP")
    let pud := if pull == "UP" then Pud.UP else if pull == "DOWN" then Pud.DOWN else Pud.OFF
    Event.setupIn cfg.pin pud

/-- `_setup_gpio()` (`src/main.py` lines 18-32): one `GPIO.setup` per entry of
`PINS`, in registration order. -/
def setup_gpio (pins : Registry) : List Event :=
  pins.map (fun nc => setupEventFor nc.2)

/-- Number of driver writes (`GPIO.output` calls) in a trace. -/
def writeCount (tr : List Event) : Nat :=
  (tr.filter fun e => match e with | Event.write _ _ => true | _ => false).length

/-- Number of driver edge subscriptions (`GPIO.add_event_detect` calls) in a trace. -/
def edgeDetectCount (tr : List Event) : Nat :=
  (tr.filter fun e => match e with | Event.addEventDetect _ _ => true | _ => false).length

/-- The write events of one full pass of the `cycle_all` while-loop body
(`src/main.py` lines 61-68): for each OUT device in order, write the ON level,
hold, write the OFF level, hold. -/
def cyclePassWrites (outs : Registry) : List Event :=
  outs.flatMap fun nc =>
    [Event.write nc.2.pin (levelForOn nc.2 true), Event.write nc.2.pin (levelForOn nc.2 false)]

/-- `cycle_all(delay)` (`src/main.py` lines 53-73).  The while-loop runs
forever; it terminates only by `KeyboardInterrupt`, modelled as arriving
during the sleep of global index `intr`.  Each write is immediately followed
by one sleep, so the interrupted run has executed exactly the first `intr + 1`
writes of the infinite repetition of `cyclePassWrites outs`. -/
def cycle_all (pins : Registry) (intr : Nat) : List Event :=
  let outs := pins.filter fun nc => pyUpper nc.2.dir == "OUT"
  if outs.isEmpty then
    [Event.warnNoOutputs]
  else
    let pass := cyclePassWrites outs
    ((List.range (intr / pass.length + 1)).flatMap fun _ => pass).take (intr + 1)
      ++ [Event.infoInterrupted, Event.cleanup]

/-- The for-loop of `test_pin_output` (`src/main.py` lines 86-92): each
iteration writes ON, sleeps, writes OFF, sleeps.  First argument of the
recursion is the remaining iteration count, second the index of the next
sleep; the result records the writes executed and whether a
`KeyboardInterrupt` (during sleep `intr`) cut the loop short. -/
def testLoop (pin : Nat) (onL offL : Level) (intr : Option Nat) :
    Nat → Nat → List Event × Bool
  | 0, _ => ([], false)
  | n + 1, s =>
    if intr = some s then
      ([Event.write pin onL], true)
    else if intr = some (s + 1) then
      ([Event.write pin onL, Event.write pin offL], true)
    else
      let r := testLoop pin onL offL intr n (s + 2)
      (Event.write pin onL :: Event.write pin offL :: r.1, r.2)

/-- `test_pin_output(pin_name, cycles, delay)` (`src/main.py` lines 75-98).
Unknown names and non-OUT pins return before the `try:` block (no driver
call, no cleanup); otherwise the loop runs, `KeyboardInterrupt` (if any) is
caught, and `finally:` issues exactly one `GPIO.cleanup()`. -/
def test_pin_output (pins : Registry) (pin_name : String) (cycles : Nat)
    (intr : Option Nat) : List Event :=
  match lookup pins pin_name with
  | none => [Event.errorUnknownPin pin_name]
  | some cfg =>
    if pyUpper cfg.dir ≠ "OUT" then
      [Event.errorWrongDirection pin_name]
    else
      let r := testLoop cfg.pin (levelForOn cfg true) (levelForOn cfg false) intr cycles 0
      r.1 ++ [if r.2 then Event.infoInterrupted else Event.infoCompleted, Event.cleanup]

/-- The accepted logical-ON tokens of `set_output` (`src/main.py` line 110):
`state_norm in ("on", "high", "1", "true")`. -/
def onTokens : List String := ["on", "high", "1", "true"]

/-- `set_output(pin_name, state)` (`src/main.py` lines 100-117).  The state
string is normalized by `state.strip().lower()`; any normalized string not
among `onTokens` (including "off", "low", "0", "false" and unrecognized
words) means logical OFF.  The `try:` body writes the level, reads it back,
and `finally:` issues one `GPIO.cleanup()`. -/
def set_output (pins : Registry) (pin_name : String) (state : String) : List Event :=
  match lookup pins pin_name with
  | none => [Event.errorUnknownPin pin_name]
  | some cfg =>
    if pyUpper cfg.dir ≠ "OUT" then
      [Event.errorWrongDirection pin_name]
    else
      let state_norm := pyLower (pyStrip state)
      let logical_on := onTokens.contains state_norm
      [Event.write cfg.pin (levelForOn cfg logical_on), Event.readPin cfg.pin, Event.cleanup]

/-- The polling loop of `watch_input` (`src/main.py` lines 145-148): each
iteration reads the pin, prints the state, and sleeps 0.5 s.  `iters` is the
number of iterations the `duration` admits; `intr` the sleep index during
which a `KeyboardInterrupt` arrives, if any. -/
def pollLoop (pin : Nat) (intr : Option Nat) : Nat → Nat → List Event × Bool
  | 0, _ => ([], false)
  | n + 1, s =>
    if intr = some s then
      ([Event.readPin pin], true)
    else
      let r := pollLoop pin intr n (s + 1)
      (Event.readPin pin :: r.1, r.2)

/-- `watch_input(pin_name, duration, bouncetime_ms)` (`src/main.py` lines
124-154).  Unknown names and non-IN pins return before the `try:` block
(no subscription, no cleanup); otherwise the initial level is read, the edge
subscription registered, the poll loop runs, and `finally:` issues one
`GPIO.cleanup()`.  Edge callbacks are driver-initiated and not part of the
command's own trace. -/
def watch_input (pins : Registry) (pin_name : String) (iters : Nat)
    (bouncetime_ms : Nat) (intr : Option Nat) : List Event :=
  match lookup pins pin_name with
  | none => [Event.errorUnknownPin pin_name]
  | some cfg =>
    if pyUpper cfg.dir ≠ "IN" then
      [Event.errorWrongDirection pin_name]
    else
      let r := pollLoop cfg.pin intr iters 0
      Event.readPin cfg.pin :: Event.addEventDetect cfg.pin bouncetime_ms :: r.1
        ++ [if r.2 then Event.infoInterrupted else Event.infoCompleted, Event.cleanup]

/-- The `if __name__ == "__main__":` guard of `src/main.py` lines 202-208:
runs `main()`; when an `Exception` propagates out of it (second component
`true`), the `except Exception:` handler calls `GPIO.cleanup()` once more and
re-raises.  A `KeyboardInterrupt` is caught inside the commands (and is not
an `Exception` subclass), so it never reaches this handler. -/
def main_guard (run : List Event × Bool) : List Event :=
  if run.2 then run.1 ++ [Event.cleanup] else run.1

/-- `cycle_all` on a run where the `GPIO.output` call of global index `fault`
raises a `DriverFault` (backend exception) instead of completing: the writes
before it have executed, `except KeyboardInterrupt:` does not catch it,
`finally:` still issues one `GPIO.cleanup()`, and the exception propagates to
the top-level guard (second component `true`). -/
def cycle_all_fault (pins : Registry) (fault : Nat) : List Event × Bool :=
  let outs := pins.filter fun nc => pyUpper nc.2.dir == "OUT"
  if outs.isEmpty then ([Event.warnNoOutputs], false)
  else
    let pass := cyclePassWrites outs
    (((List.range (fault / pass.length + 1)).flatMap fun _ => pass).take fault
      ++ [Event.cleanup], true)

/-- The `test_pin_output` for-loop when the `GPIO.output` call of index
`fault` (counting the writes of this command from 0) raises: the writes
before it execute, the faulting write does not, and the loop aborts (second
component `true`).  If index `fault` is never reached the loop completes
normally. -/
def testLoopFault (pin : Nat) (onL offL : Level) (fault : Nat) :
    Nat → Nat → List Event × Bool
  | 0, _ => ([], false)
  | n + 1, w =>
    if fault = w then ([], true)
    else if fault = w + 1 then ([Event.write pin onL], true)
    else
      let r := testLoopFault pin onL offL fault n (w + 2)
      (Event.write pin onL :: Event.write pin offL :: r.1, r.2)

/-- `test_pin_output` on a run where the `fault`-th `GPIO.output` call raises
a `DriverFault`: the `except KeyboardInterrupt:` clause does not catch it,
`finally:` still issues one `GPIO.cleanup()`, and the exception propagates to
the top-level guard (second component `true`). -/
def test_pin_output_fault (pins : Registry) (pin_name : String) (cycles : Nat)
    (fault : Nat) : List Event × Bool :=
  match lookup pins pin_name with
  | none => ([Event.errorUnknownPin pin_name], false)
  | some cfg =>
    if pyUpper cfg.dir ≠ "OUT" then ([Event.errorWrongDirection pin_name], false)
    else
      let r := testLoopFault cfg.pin (levelForOn cfg true) (levelForOn cfg false) fault cycles 0
      if r.2 then (r.1 ++ [Event.cleanup], true)
      else (r.1 ++ [Event.infoCompleted, Event.cleanup], false)

/-- `set_output` on a run where the `fault`-th driver call inside the `try:`
block raises a `DriverFault` (index 0 = the `GPIO.output` write, index 1 =
the `GPIO.input` read-back); `finally:` still issues one `GPIO.cleanup()` and
the exception propagates (second component `true`). -/
def set_output_fault (pins : Registry) (pin_name : String) (state : String)
    (fault : Nat) : List Event × Bool :=
  match lookup pins pin_name with
  | none => ([Event.errorUnknownPin pin_name], false)
  | some cfg =>
    if pyUpper cfg.dir ≠ "OUT" then ([Event.errorWrongDirection pin_name], false)
    else
      let state_norm := pyLower (pyStrip state)
      let logical_on := onTokens.contains state_norm
      if fault = 0 then ([Event.cleanup], true)
      else if fault = 1 then
        ([Event.write cfg.pin (levelForOn cfg logical_on), Event.cleanup], true)
      else
        ([Event.write cfg.pin (levelForOn cfg logical_on), Event.readPin cfg.pin,
          Event.cleanup], false)

/-- The `watch_input` polling loop when the `GPIO.input` read of driver-call
index `fault` raises (`i` is the index of this iteration's read; indices
continue from the two driver calls made before the loop). -/
def pollLoopFault (pin : Nat) (fault : Nat) : Nat → Nat → List Event × Bool
  | 0, _ => ([], false)
  | n + 1, i =>
    if fault = i then ([], true)
    else
      let r := pollLoopFault pin fault n (i + 1)
      (Event.readPin pin :: r.1, r.2)

/-- `watch_input` on a run where the `fault`-th driver call inside the `try:`
block raises a `DriverFault` (index 0 = the initial `GPIO.input`, index 1 =
`GPIO.add_event_detect`, indices 2,3,… = the polling reads); `finally:` still
issues one `GPIO.cleanup()` and the exception propagates (second component
`true`). -/
def watch_input_fault (pins : Registry) (pin_name : String) (iters : Nat)
    (bouncetime_ms : Nat) (fault : Nat) : List Event × Bool :=
  match lookup pins pin_name with
  | none => ([Event.errorUnknownPin pin_name], false)
  | some cfg =>
    if pyUpper cfg.dir ≠ "IN" then ([Event.errorWrongDirection pin_name], false)
    else
      if fault = 0 then ([Event.cleanup], true)
      else if fault = 1 then ([Event.readPin cfg.pin, Event.cleanup], true)
      else
        let r := pollLoopFault cfg.pin fault iters 2
        if r.2 then
          (Event.readPin cfg.pin :: Event.addEventDetect cfg.pin bouncetime_ms :: r.1
            ++ [Event.cleanup], true)
        else
          (Event.readPin cfg.pin :: Event.addEventDetect cfg.pin bouncetime_ms :: r.1
            ++ [Event.infoCompleted, Event.cleanup], false)

/-- The example registry of the specification scenario:
`{S: INPUT pin 18 pull=UP active_low=true, R: OUTPUT pin 23 active_high=true}`. -/
def sensorCfgS : PinCfg :=
  { pin := 18, dir := "IN", pull := some "UP", active_low := some true }

/-- The OUTPUT descriptor `R` of the specification scenario registry. -/
def relayCfgR : PinCfg :=
  { pin := 23, dir := "OUT", active_high := some true }

/-- The specification scenario registry `{S, R}`. -/
def exampleRegistry : Registry := [("S", sensorCfgS), ("R", relayCfgR)]

/-- An OUTPUT descriptor with `active_high = False`, legal per the schema. -/
def invertedPumpCfg : PinCfg := { pin := 5, dir := "OUT", active_high := some false }

/-! ## Helper lemmas -/

theorem levelForOn_on_ne_off (cfg : PinCfg) : levelForOn cfg true ≠ levelForOn cfg false := by
  cases hah : cfg.active_high.getD true <;> simp [levelForOn, hah]

/-- The strictly alternating event list `[a, b, a, b, …]` with `n` pairs. -/
def altPairs (a b : Event) : Nat → List Event
  | 0 => []
  | n + 1 => a :: b :: altPairs a b n

theorem altPairs_count_left (a b : Event) (n : Nat) (h : a ≠ b) :
    (altPairs a b n).count a = n := by
  induction n with
  | zero => rfl
  | succ n ih => simp [altPairs, List.count_cons, ih, h, Ne.symm h]

theorem altPairs_count_right (a b : Event) (n : Nat) (h : a ≠ b) :
    (altPairs a b n).count b = n := by
  induction n with
  | zero => rfl
  | succ n ih => simp [altPairs, List.count_cons, ih, h, Ne.symm h]

theorem testLoop_none (pin : Nat) (a b : Level) :
    ∀ n s, testLoop pin a b none n s
      = (altPairs (Event.write pin a) (Event.write pin b) n, false) := by
  intro n
  induction n with
  | zero => intro s; simp [testLoop, altPairs]
  | succ n ih => intro s; simp [testLoop, altPairs, ih]

theorem testLoop_count_cleanup (pin : Nat) (a b : Level) (intr : Option Nat) :
    ∀ n s, ((testLoop pin a b intr n s).1).count Event.cleanup = 0 := by
  intro n
  induction n with
  | zero => intro s; simp [testLoop]
  | succ n ih =>
    intro s
    simp only [testLoop]
    split
    · simp
    · split
      · simp
      · simp [List.count_cons, ih]

theorem pollLoop_count_cleanup (pin : Nat) (intr : Option Nat) :
    ∀ n s, ((pollLoop pin intr n s).1).count Event.cleanup = 0 := by
  intro n
  induction n with
  | zero => intro s; simp [pollLoop]
  | succ n ih =>
    intro s
    simp only [pollLoop]
    split
    · simp
    · simp [List.count_cons, ih]

theorem testLoopFault_count_cleanup (pin : Nat) (a b : Level) (fault : Nat) :
    ∀ n w, ((testLoopFault pin a b fault n w).1).count Event.cleanup = 0 := by
  intro n
  induction n with
  | zero => intro w; simp [testLoopFault]
  | succ n ih =>
    intro w
    simp only [testLoopFault]
    split
    · simp
    · split
      · simp
      · simp [List.count_cons, ih]

theorem testLoopFault_raised (pin : Nat) (a b : Level) (fault : Nat) :
    ∀ n w, ((testLoopFault pin a b fault n w).2 = true)
      ↔ (w ≤ fault ∧ fault < w + 2 * n) := by
  intro n
  induction n with
  | zero => intro w; simp [testLoopFault]
  | succ n ih =>
    intro w
    by_cases hf1 : fault = w
    · simp [testLoopFault, hf1]
    · by_cases hf2 : fault = w + 1
      · simp [testLoopFault, hf1, hf2]; omega
      · simp only [testLoopFault, hf1, hf2, if_false, ih]
        omega

theorem pollLoopFault_count_cleanup (pin : Nat) (fault : Nat) :
    ∀ n i, ((pollLoopFault pin fault n i).1).count Event.cleanup = 0 := by
  intro n
  induction n with
  | zero => intro i; simp [pollLoopFault]
  | succ n ih =>
    intro i
    simp only [pollLoopFault]
    split
    · simp
    · simp [List.count_cons, ih]

theorem pollLoopFault_raised (pin : Nat) (fault : Nat) :
    ∀ n i, ((pollLoopFault pin fault n i).2 = true)
      ↔ (i ≤ fault ∧ fault < i + n) := by
  intro n
  induction n with
  | zero => intro i; simp [pollLoopFault]
  | succ n ih =>
    intro i
    by_cases hf : fault = i
    · simp [pollLoopFault, hf]
    · simp only [pollLoopFault, hf, if_false, ih]
      omega

theorem count_cleanup_tail (l : List Event) (b : Bool)
    (hl : l.count Event.cleanup = 0) :
    (l ++ [if b then Event.infoInterrupted else Event.infoCompleted, Event.cleanup]).count
      Event.cleanup = 1 := by
  rw [List.count_append, hl]
  cases b <;> rfl

theorem cleanup_not_mem_cyclePassWrites (outs : Registry) :
    Event.cleanup ∉ cyclePassWrites outs := by
  simp [cyclePassWrites]

theorem cycle_stream_count_cleanup (outs : Registry) (m n : Nat) :
    ((((List.range m).flatMap fun _ => cyclePassWrites outs).take n).count Event.cleanup) = 0 := by
  apply List.count_eq_zero.mpr
  intro hmem
  have h2 := List.take_subset _ _ hmem
  rw [List.mem_flatMap] at h2
  obtain ⟨i, -, hp⟩ := h2
  exact cleanup_not_mem_cyclePassWrites outs hp

/-! ## Claim theorems -/

/-- C2: for every logical boolean and polarity flag, `_level_for_on`
(the spec's `to_electrical`) returns HIGH if and only if the logical value
equals `active_high`, and LOW otherwise. -/
theorem c2_to_electrical_high_iff (cfg : PinCfg) (logical_on : Bool)
    (h : pyUpper cfg.dir = "OUT") :
    (level_for_on cfg logical_on = Except.ok Level.HIGH
        ↔ logical_on = cfg.active_high.getD true)
  ∧ (level_for_on cfg logical_on = Except.ok Level.LOW
        ↔ logical_on ≠ cfg.active_high.getD true) := by
  rw [level_for_on_ok cfg logical_on h]
  by_cases hb : logical_on = cfg.active_high.getD true <;> simp [levelForOn, hb]

theorem c2_witness :
    level_for_on pumpCfg true = Except.ok Level.HIGH
  ∧ level_for_on pumpCfg false = Except.ok Level.LOW :=
  ⟨(c2_to_electrical_high_iff pumpCfg true (by decide)).1.mpr (by decide),
   (c2_to_electrical_high_iff pumpCfg false (by decide)).2.mpr (by decide)⟩

/-- C4: when the OUTPUT active-high convention and the INPUT active-low
convention describe the same electrical polarity (`active_high = !active_low`),
the round trip `from_electrical (to_electrical x) = x` holds. -/
theorem c4_roundtrip (cfg : PinCfg) (x active_low : Bool)
    (hd : pyUpper cfg.dir = "OUT")
    (hp : cfg.active_high.getD true = !active_low) :
    (level_for_on cfg x).map (fmtInputActive active_low) = Except.ok x := by
  rw [level_for_on_ok cfg x hd]
  cases x <;> cases active_low <;> simp_all [levelForOn, fmtInputActive, Except.map]

theorem c4_witness :
    (level_for_on pumpCfg true).map (fmtInputActive false) = Except.ok true :=
  c4_roundtrip pumpCfg true false (by decide) (by decide)

/-- C3: `test` on a known OUTPUT device with `cycles ≥ 1` and no interrupt
performs exactly `cycles` ON writes and `cycles` OFF writes, strictly
alternating starting with ON, then completes normally and cleans up. -/
theorem c3_test_exact_alternating_cycles (pins : Registry) (name : String)
    (cfg : PinCfg) (cycles : Nat)
    (h : lookup pins name = some cfg) (hd : pyUpper cfg.dir = "OUT")
    (hc : 1 ≤ cycles) :
    test_pin_output pins name cycles none
        = altPairs (Event.write cfg.pin (levelForOn cfg true))
            (Event.write cfg.pin (levelForOn cfg false)) cycles
          ++ [Event.infoCompleted, Event.cleanup]
    ∧ (test_pin_output pins name cycles none).count
        (Event.write cfg.pin (levelForOn cfg true)) = cycles
    ∧ (test_pin_output pins name cycles none).count
        (Event.write cfg.pin (levelForOn cfg false)) = cycles := by
  have hwne : Event.write cfg.pin (levelForOn cfg true)
      ≠ Event.write cfg.pin (levelForOn cfg false) := by
    simpa using levelForOn_on_ne_off cfg
  have htrace : test_pin_output pins name cycles none
      = altPairs (Event.write cfg.pin (levelForOn cfg true))
          (Event.write cfg.pin (levelForOn cfg false)) cycles
        ++ [Event.infoCompleted, Event.cleanup] := by
    simp only [test_pin_output, h]
    rw [if_neg (not_ne_iff.mpr hd), testLoop_none]
    simp
  refine ⟨htrace, ?_, ?_⟩
  · rw [htrace, List.count_append, altPairs_count_left _ _ _ hwne]
    simp
  · rw [htrace, List.count_append, altPairs_count_right _ _ _ hwne]
    simp

theorem c3_witness :
    test_pin_output PINS "ESPRESSO_PUMP_RELAY" 3 none
        = [Event.write 23 Level.HIGH, Event.write 23 Level.LOW,
           Event.write 23 Level.HIGH, Event.write 23 Level.LOW,
           Event.write 23 Level.HIGH, Event.write 23 Level.LOW,
           Event.infoCompleted, Event.cleanup]
    ∧ (test_pin_output PINS "ESPRESSO_PUMP_RELAY" 3 none).count
        (Event.write 23 Level.HIGH) = 3
    ∧ (test_pin_output PINS "ESPRESSO_PUMP_RELAY" 3 none).count
        (Event.write 23 Level.LOW) = 3 := by
  have h := c3_test_exact_alternating_cycles PINS "ESPRESSO_PUMP_RELAY" pumpCfg 3
    (by decide) (by decide) (by decide)
  have e1 : Event.write pumpCfg.pin (levelForOn pumpCfg true) = Event.write 23 Level.HIGH := by
    decide
  have e2 : Event.write pumpCfg.pin (levelForOn pumpCfg false) = Event.write 23 Level.LOW := by
    decide
  refine ⟨h.1.trans (by decide), ?_, ?_⟩
  · rw [← e1]; exact h.2.1
  · rw [← e2]; exact h.2.2

/-- C6: `cycle` on a registry with no OUTPUT devices returns immediately with
a warning and issues zero driver writes, whatever the interrupt timing. -/
theorem c6_cycle_empty_no_writes (pins : Registry) (intr : Nat)
    (h : pins.filter (fun nc => pyUpper nc.2.dir == "OUT") = []) :
    cycle_all pins intr = [Event.warnNoOutputs]
  ∧ writeCount (cycle_all pins intr) = 0 := by
  have htrace : cycle_all pins intr = [Event.warnNoOutputs] := by
    simp [cycle_all, h]
  exact ⟨htrace, by rw [htrace]; rfl⟩

theorem c6_witness :
    cycle_all [("LOW_FILL_SENSOR", lowFillCfg)] 0 = [Event.warnNoOutputs]
  ∧ writeCount (cycle_all [("LOW_FILL_SENSOR", lowFillCfg)] 0) = 0 :=
  c6_cycle_empty_no_writes [("LOW_FILL_SENSOR", lowFillCfg)] 0 (by decide)

/-- C7: `test` on an INPUT device fails with the wrong-direction error and
performs no driver write; `watch` on an OUTPUT device fails with the
wrong-direction error and registers no edge subscription. -/
theorem c7_wrong_direction_rejected (pins : Registry) (name : String)
    (cfg : PinCfg) (h : lookup pins name = some cfg) :
    (pyUpper cfg.dir = "IN" → ∀ cycles intr,
        test_pin_output pins name cycles intr = [Event.errorWrongDirection name]
      ∧ writeCount (test_pin_output pins name cycles intr) = 0)
  ∧ (pyUpper cfg.dir = "OUT" → ∀ iters bt intr,
        watch_input pins name iters bt intr = [Event.errorWrongDirection name]
      ∧ edgeDetectCount (watch_input pins name iters bt intr) = 0) := by
  constructor
  · intro hdir cycles intr
    have htrace : test_pin_output pins name cycles intr
        = [Event.errorWrongDirection name] := by
      simp only [test_pin_output, h]
      rw [if_pos (by simp [hdir])]
    exact ⟨htrace, by rw [htrace]; rfl⟩
  · intro hdir iters bt intr
    have htrace : watch_input pins name iters bt intr
        = [Event.errorWrongDirection name] := by
      simp only [watch_input, h]
      rw [if_pos (by simp [hdir])]
    exact ⟨htrace, by rw [htrace]; rfl⟩

theorem c7_witness :
    test_pin_output exampleRegistry "S" 3 none = [Event.errorWrongDirection "S"]
  ∧ watch_input exampleRegistry "R" 2 200 none = [Event.errorWrongDirection "R"] :=
  ⟨((c7_wrong_direction_rejected exampleRegistry "S" sensorCfgS (by decide)).1
      (by decide) 3 none).1,
   ((c7_wrong_direction_rejected exampleRegistry "R" relayCfgR (by decide)).2
      (by decide) 2 200 none).1⟩

/-- C8: for a fixed OUTPUT descriptor, `set` with "HIGH", "1" and "true"
produces identical traces (hence the identical electrical write), and the
state parsing depends only on the stripped, lowercased form of the state
string — so it is case- (and surrounding-whitespace-) insensitive over the
accepted tokens on, off, high, low, 1, 0, true, false. -/
theorem c8_set_state_tokens_equivalent :
    (∀ (pins : Registry) (name : String) (cfg : PinCfg),
        lookup pins name = some cfg → pyUpper cfg.dir = "OUT" →
        set_output pins name "HIGH" = set_output pins name "1"
      ∧ set_output pins name "1" = set_output pins name "true")
  ∧ (∀ (pins : Registry) (name : String) (s₁ s₂ : String),
        pyLower (pyStrip s₁) = pyLower (pyStrip s₂) →
        set_output pins name s₁ = set_output pins name s₂) := by
  constructor
  · intro pins name cfg h hd
    have e1 : onTokens.contains (pyLower (pyStrip "HIGH")) = true := by decide
    have e2 : onTokens.contains (pyLower (pyStrip "1")) = true := by decide
    have e3 : onTokens.contains (pyLower (pyStrip "true")) = true := by decide
    refine ⟨?_, ?_⟩
    · simp only [set_output, h]
      rw [if_neg (not_ne_iff.mpr hd), if_neg (not_ne_iff.mpr hd), e1, e2]
    · simp only [set_output, h]
      rw [if_neg (not_ne_iff.mpr hd), if_neg (not_ne_iff.mpr hd), e2, e3]
  · intro pins name s₁ s₂ hnorm
    cases hl : lookup pins name with
    | none => simp [set_output, hl]
    | some cfg =>
      by_cases hd : pyUpper cfg.dir = "OUT" <;> simp [set_output, hl, hd, hnorm]

theorem c8_witness :
    set_output PINS "ESPRESSO_PUMP_RELAY" "HIGH" = set_output PINS "ESPRESSO_PUMP_RELAY" "1"
  ∧ set_output PINS "ESPRESSO_PUMP_RELAY" " True " = set_output PINS "ESPRESSO_PUMP_RELAY" "true" :=
  ⟨(c8_set_state_tokens_equivalent.1 PINS "ESPRESSO_PUMP_RELAY" pumpCfg
      (by decide) (by decide)).1,
   c8_set_state_tokens_equivalent.2 PINS "ESPRESSO_PUMP_RELAY" " True " "true" (by decide)⟩

/-- C9 counterexample: for the legal OUTPUT descriptor with
`active_high = False`, `_setup_gpio` initializes the pin to electrical LOW,
but `to_electrical(false, active_high=False)` is HIGH — so the initial level
written at setup is NOT `to_electrical(false, active_high)` for every OUTPUT
descriptor, contrary to the claim. -/
theorem c9_counterexample :
    setupEventFor invertedPumpCfg = Event.setupOut 5 Level.LOW
  ∧ levelForOn invertedPumpCfg false = Level.HIGH
  ∧ setupEventFor invertedPumpCfg
      ≠ Event.setupOut 5 (levelForOn invertedPumpCfg false) := by
  decide

/-- C9 amended: `configure` initializes every OUTPUT pin to electrical LOW
unconditionally (`initial=GPIO.LOW`); this coincides with logical OFF, i.e.
with `to_electrical(false, active_high)`, exactly when `active_high` is true
(as it is for every configured descriptor, and by default). -/
theorem c9_output_setup_initial_low (pins : Registry) (name : String)
    (cfg : PinCfg) (hmem : (name, cfg) ∈ pins) (hd : pyUpper cfg.dir = "OUT") :
    Event.setupOut cfg.pin Level.LOW ∈ setup_gpio pins
  ∧ (levelForOn cfg false = Level.LOW ↔ cfg.active_high.getD true = true) := by
  constructor
  · have hs : setupEventFor cfg = Event.setupOut cfg.pin Level.LOW := by
      simp [setupEventFor, hd]
    rw [← hs]
    exact List.mem_map.mpr ⟨(name, cfg), hmem, rfl⟩
  · cases hah : cfg.active_high.getD true <;> simp [levelForOn, hah]

theorem c9_witness :
    Event.setupOut 23 Level.LOW ∈ setup_gpio PINS
  ∧ (levelForOn pumpCfg false = Level.LOW ↔ pumpCfg.active_high.getD true = true) :=
  c9_output_setup_initial_low PINS "ESPRESSO_PUMP_RELAY" pumpCfg
    (by decide) (by decide)

/-- C10: `set` on a known OUTPUT device never rejects the state string: the
trace is always exactly one driver write (of the level for logical ON exactly
when the stripped lowercased state is among on/high/1/true, and logical OFF
for every other string), one read-back, and one cleanup. -/
theorem c10_set_never_rejects (pins : Registry) (name : String) (cfg : PinCfg)
    (s : String) (h : lookup pins name = some cfg) (hd : pyUpper cfg.dir = "OUT") :
    set_output pins name s
      = [Event.write cfg.pin (levelForOn cfg (onTokens.contains (pyLower (pyStrip s)))),
         Event.readPin cfg.pin, Event.cleanup]
  ∧ writeCount (set_output pins name s) = 1 := by
  have htrace : set_output pins name s
      = [Event.write cfg.pin (levelForOn cfg (onTokens.contains (pyLower (pyStrip s)))),
         Event.readPin cfg.pin, Event.cleanup] := by
    simp only [set_output, h]
    rw [if_neg (not_ne_iff.mpr hd)]
  exact ⟨htrace, by rw [htrace]; rfl⟩

theorem c10_witness :
    set_output PINS "ESPRESSO_PUMP_RELAY" "garbage"
      = [Event.write 23 Level.LOW, Event.readPin 23, Event.cleanup]
  ∧ writeCount (set_output PINS "ESPRESSO_PUMP_RELAY" "garbage") = 1 := by
  have h := c10_set_never_rejects PINS "ESPRESSO_PUMP_RELAY" pumpCfg "garbage"
    (by decide) (by decide)
  exact ⟨h.1.trans (by decide), h.2⟩

/-- C1 counterexample, refuting "exactly once" on two of the claimed exit
paths.  (a) The `test` command on the INPUT pin `LOW_FILL_SENSOR` (a
WrongDirection error path) returns after the error message with ZERO
`GPIO.cleanup` calls.  (b) On an unhandled fault — the first `GPIO.output`
of `test` on `ESPRESSO_PUMP_RELAY` raising a `DriverFault` — the command's
`finally:` runs `GPIO.cleanup()` and then the top-level `except Exception:`
handler runs it a SECOND time before re-raising: TWO cleanup calls. -/
theorem c1_counterexample :
    (test_pin_output PINS "LOW_FILL_SENSOR" 3 none
        = [Event.errorWrongDirection "LOW_FILL_SENSOR"]
      ∧ (test_pin_output PINS "LOW_FILL_SENSOR" 3 none).count Event.cleanup ≠ 1)
  ∧ (main_guard (test_pin_output_fault PINS "ESPRESSO_PUMP_RELAY" 3 0)
        = [Event.cleanup, Event.cleanup]
      ∧ (main_guard (test_pin_output_fault PINS "ESPRESSO_PUMP_RELAY" 3 0)).count
          Event.cleanup ≠ 1) := by
  decide

/-- C1 amended: every command path that passes name/direction validation and
ends by normal completion or by interruption during a hold — for `cycle`,
`test`, `watch` and `set` — invokes `GPIO.cleanup` exactly once (including
under the top-level guard, which does nothing on these paths); the
validation-failure paths (unknown pin, wrong direction, and `cycle` with no
OUTPUT devices) return before the `try/finally` block and invoke it zero
times; and a run ended by an unhandled `DriverFault` raised inside a
command's `try:` block invokes `GPIO.cleanup` TWICE — once in the command's
`finally:` and once more in the top-level `except Exception:` handler of the
`__main__` guard — before the process exits. -/
theorem c1_cleanup_discipline :
    (∀ (pins : Registry) (intr : Nat),
        pins.filter (fun nc => pyUpper nc.2.dir == "OUT") ≠ [] →
        (cycle_all pins intr).count Event.cleanup = 1)
  ∧ (∀ (pins : Registry) (intr : Nat),
        pins.filter (fun nc => pyUpper nc.2.dir == "OUT") = [] →
        (cycle_all pins intr).count Event.cleanup = 0)
  ∧ (∀ (pins : Registry) (name : String) (cfg : PinCfg) (cycles : Nat) (intr : Option Nat),
        lookup pins name = some cfg → pyUpper cfg.dir = "OUT" →
        (test_pin_output pins name cycles intr).count Event.cleanup = 1)
  ∧ (∀ (pins : Registry) (name : String) (cycles : Nat) (intr : Option Nat),
        lookup pins name = none →
        (test_pin_output pins name cycles intr).count Event.cleanup = 0)
  ∧ (∀ (pins : Registry) (name : String) (cfg : PinCfg) (cycles : Nat) (intr : Option Nat),
        lookup pins name = some cfg → pyUpper cfg.dir ≠ "OUT" →
        (test_pin_output pins name cycles intr).count Event.cleanup = 0)
  ∧ (∀ (pins : Registry) (name : String) (cfg : PinCfg) (iters bt : Nat) (intr : Option Nat),
        lookup pins name = some cfg → pyUpper cfg.dir = "IN" →
        (watch_input pins name iters bt intr).count Event.cleanup = 1)
  ∧ (∀ (pins : Registry) (name : String) (iters bt : Nat) (intr : Option Nat),
        lookup pins name = none →
        (watch_input pins name iters bt intr).count Event.cleanup = 0)
  ∧ (∀ (pins : Registry) (name : String) (cfg : PinCfg) (iters bt : Nat) (intr : Option Nat),
        lookup pins name = some cfg → pyUpper cfg.dir ≠ "IN" →
        (watch_input pins name iters bt intr).count Event.cleanup = 0)
  ∧ (∀ (pins : Registry) (name : String) (cfg : PinCfg) (s : String),
        lookup pins name = some cfg → pyUpper cfg.dir = "OUT" →
        (set_output pins name s).count Event.cleanup = 1)
  ∧ (∀ (pins : Registry) (name : String) (s : String),
        lookup pins name = none →
        (set_output pins name s).count Event.cleanup = 0)
  ∧ (∀ (pins : Registry) (name : String) (cfg : PinCfg) (s : String),
        lookup pins name = some cfg → pyUpper cfg.dir ≠ "OUT" →
        (set_output pins name s).count Event.cleanup = 0)
  ∧ (∀ (pins : Registry) (fault : Nat),
        pins.filter (fun nc => pyUpper nc.2.dir == "OUT") ≠ [] →
        (main_guard (cycle_all_fault pins fault)).count Event.cleanup = 2)
  ∧ (∀ (pins : Registry) (name : String) (cfg : PinCfg) (cycles fault : Nat),
        lookup pins name = some cfg → pyUpper cfg.dir = "OUT" → fault < 2 * cycles →
        (main_guard (test_pin_output_fault pins name cycles fault)).count Event.cleanup = 2)
  ∧ (∀ (pins : Registry) (name : String) (cfg : PinCfg) (cycles fault : Nat),
        lookup pins name = some cfg → pyUpper cfg.dir = "OUT" → 2 * cycles ≤ fault →
        (main_guard (test_pin_output_fault pins name cycles fault)).count Event.cleanup = 1)
  ∧ (∀ (pins : Registry) (name : String) (cfg : PinCfg) (s : String) (fault : Nat),
        lookup pins name = some cfg → pyUpper cfg.dir = "OUT" → fault < 2 →
        (main_guard (set_output_fault pins name s fault)).count Event.cleanup = 2)
  ∧ (∀ (pins : Registry) (name : String) (cfg : PinCfg) (iters bt fault : Nat),
        lookup pins name = some cfg → pyUpper cfg.dir = "IN" → fault < 2 + iters →
        (main_guard (watch_input_fault pins name iters bt fault)).count Event.cleanup = 2) := by
  refine ⟨?_, ?_, ?_, ?_, ?_, ?_, ?_, ?_, ?_, ?_, ?_, ?_, ?_, ?_, ?_, ?_⟩
  · intro pins intr h
    have hne : ((pins.filter fun nc => pyUpper nc.2.dir == "OUT").isEmpty) = false := by
      rcases hc : pins.filter fun nc => pyUpper nc.2.dir == "OUT" with _ | ⟨x, xs⟩
      · exact absurd hc h
      · rw [hc]; rfl
    simp only [cycle_all, hne, Bool.false_eq_true, if_false]
    rw [List.count_append, cycle_stream_count_cleanup]
    rfl
  · intro pins intr h
    simp [cycle_all, h]
  · intro pins name cfg cycles intr h hd
    simp only [test_pin_output, h]
    rw [if_neg (not_ne_iff.mpr hd)]
    exact count_cleanup_tail _ _ (testLoop_count_cleanup _ _ _ _ _ _)
  · intro pins name cycles intr h
    simp [test_pin_output, h]
  · intro pins name cfg cycles intr h hd
    simp only [test_pin_output, h]
    rw [if_pos hd]
    simp
  · intro pins name cfg iters bt intr h hd
    simp only [watch_input, h]
    rw [if_neg (not_ne_iff.mpr hd)]
    have ht := count_cleanup_tail (pollLoop cfg.pin intr iters 0).1
      (pollLoop cfg.pin intr iters 0).2 (pollLoop_count_cleanup cfg.pin intr iters 0)
    simp [List.count_cons, ht]
  · intro pins name iters bt intr h
    simp [watch_input, h]
  · intro pins name cfg iters bt intr h hd
    simp only [watch_input, h]
    rw [if_pos hd]
    simp
  · intro pins name cfg s h hd
    simp only [set_output, h]
    rw [if_neg (not_ne_iff.mpr hd)]
    rfl
  · intro pins name s h
    simp [set_output, h]
  · intro pins name cfg s h hd
    simp only [set_output, h]
    rw [if_pos hd]
    simp
  · intro pins fault h
    have hne : ((pins.filter fun nc => pyUpper nc.2.dir == "OUT").isEmpty) = false := by
      rcases hc : pins.filter fun nc => pyUpper nc.2.dir == "OUT" with _ | ⟨x, xs⟩
      · exact absurd hc h
      · rw [hc]; rfl
    simp only [cycle_all_fault, hne, Bool.false_eq_true, if_false, main_guard, if_true]
    rw [List.count_append, List.count_append, cycle_stream_count_cleanup]
    rfl
  · intro pins name cfg cycles fault h hd hf
    have hr : (testLoopFault cfg.pin (levelForOn cfg true) (levelForOn cfg false)
        fault cycles 0).2 = true :=
      (testLoopFault_raised _ _ _ _ _ _).mpr ⟨Nat.zero_le _, by omega⟩
    simp only [test_pin_output_fault, h]
    rw [if_neg (not_ne_iff.mpr hd)]
    simp only [hr, if_true, main_guard]
    rw [List.count_append, List.count_append, testLoopFault_count_cleanup]
    rfl
  · intro pins name cfg cycles fault h hd hf
    have hr : (testLoopFault cfg.pin (levelForOn cfg true) (levelForOn cfg false)
        fault cycles 0).2 = false := by
      cases hb : (testLoopFault cfg.pin (levelForOn cfg true) (levelForOn cfg false)
          fault cycles 0).2 with
      | false => rfl
      | true =>
        have := (testLoopFault_raised cfg.pin (levelForOn cfg true) (levelForOn cfg false)
          fault cycles 0).mp hb
        omega
    simp only [test_pin_output_fault, h]
    rw [if_neg (not_ne_iff.mpr hd)]
    simp only [hr, Bool.false_eq_true, if_false, main_guard]
    rw [List.count_append, testLoopFault_count_cleanup]
    rfl
  · intro pins name cfg s fault h hd hf
    have hcases : fault = 0 ∨ fault = 1 := by omega
    rcases hcases with hf0 | hf1
    · subst hf0
      simp [set_output_fault, h, hd, main_guard]
    · subst hf1
      simp [set_output_fault, h, hd, main_guard, List.count_cons]
  · intro pins name cfg iters bt fault h hd hf
    have hcases : fault = 0 ∨ fault = 1 ∨ (2 ≤ fault ∧ fault < 2 + iters) := by omega
    rcases hcases with hf0 | hf1 | ⟨hge, hlt⟩
    · subst hf0
      simp [watch_input_fault, h, hd, main_guard]
    · subst hf1
      simp [watch_input_fault, h, hd, main_guard, List.count_cons]
    · have hr : (pollLoopFault cfg.pin fault iters 2).2 = true :=
        (pollLoopFault_raised _ _ _ _).mpr ⟨hge, hlt⟩
      have hne0 : fault ≠ 0 := by omega
      have hne1 : fault ≠ 1 := by omega
      simp only [watch_input_fault, h]
      rw [if_neg (not_ne_iff.mpr hd), if_neg hne0, if_neg hne1]
      simp only [hr, if_true, main_guard]
      simp [List.count_cons, List.count_append, pollLoopFault_count_cleanup]

theorem c1_witness :
    (cycle_all PINS 4).count Event.cleanup = 1
  ∧ (test_pin_output PINS "ESPRESSO_PUMP_RELAY" 3 (some 1)).count Event.cleanup = 1
  ∧ (watch_input PINS "LOW_FILL_SENSOR" 2 200 (some 0)).count Event.cleanup = 1
  ∧ (set_output PINS "NOPE" "on").count Event.cleanup = 0
  ∧ (main_guard (test_pin_output_fault PINS "ESPRESSO_PUMP_RELAY" 3 2)).count
      Event.cleanup = 2
  ∧ (main_guard (set_output_fault PINS "ESPRESSO_PUMP_RELAY" "on" 0)).count
      Event.cleanup = 2
  ∧ (main_guard (watch_input_fault PINS "LOW_FILL_SENSOR" 2 200 3)).count
      Event.cleanup = 2 := by
  obtain ⟨hA, hB, hC, hD, hE, hF, hG, hH, hI, hJ, hK, hL, hM, hN, hO, hP⟩ :=
    c1_cleanup_discipline
  exact ⟨hA PINS 4 (by decide), hC PINS "ESPRESSO_PUMP_RELAY" pumpCfg 3 (some 1)
      (by decide) (by decide),
    hF PINS "LOW_FILL_SENSOR" lowFillCfg 2 200 (some 0) (by decide) (by decide),
    hJ PINS "NOPE" "on" (by decide),
    hM PINS "ESPRESSO_PUMP_RELAY" pumpCfg 3 2 (by decide) (by decide) (by decide),
    hO PINS "ESPRESSO_PUMP_RELAY" pumpCfg "on" 0 (by decide) (by decide) (by decide),
    hP PINS "LOW_FILL_SENSOR" lowFillCfg 2 200 3 (by decide) (by decide) (by decide)⟩
